import Mathlib

/-!
Verification of the saga package: the pure saga state machine
(updateSagaState, makeSagaState) and the in-memory saga log
(LogMessage, StartSaga, GetMessages, GetActiveSagas).

Go maps from string keys are modelled as association lists with
replace-on-insert semantics; a missing key reads as the zero value, as in Go.
Byte slices are modelled as Option (List Nat): none models a nil slice.
-/

/-- Association-list lookup, modelling a Go map read: first matching key. -/
def lookupAL {α : Type} (l : List (String × α)) (k : String) : Option α :=
  match l with
  | [] => none
  | (k', v') :: rest => if k' = k then some v' else lookupAL rest k

/-- Association-list insert, modelling a Go map write: replaces the value at
an existing key, otherwise appends a fresh entry. -/
def insertAL {α : Type} (l : List (String × α)) (k : String) (v : α) : List (String × α) :=
  match l with
  | [] => [(k, v)]
  | (k', v') :: rest => if k' = k then (k, v) :: rest else (k', v') :: insertAL rest k v

/-- Does the character list start with the given pattern. -/
def listStartsWith : List Char → List Char → Bool
  | _, [] => true
  | [], _ :: _ => false
  | c :: s, d :: t => c = d && listStartsWith s t

/-- Does the character list contain the given pattern as a contiguous run. -/
def listHasSub : List Char → List Char → Bool
  | [], t => t.isEmpty
  | c :: s, t => listStartsWith (c :: s) t || listHasSub s t

/-- Substring test used to state that an error message mentions a phrase. -/
def strContains (s sub : String) : Bool :=
  listHasSub s.data sub.data

/-- The seven saga message types. -/
inductive SagaMessageType where
  | StartSaga
  | EndSaga
  | AbortSaga
  | StartTask
  | EndTask
  | StartCompTask
  | EndCompTask
deriving DecidableEq, Repr

/-- Modelled from the spec: the sagaMessage record is declared outside the
given source files; per the data model it carries a sagaId, a message type,
a taskId (unused for the saga-level messages) and an optional opaque data
payload. -/
structure sagaMessage where
  sagaId : String
  msgType : SagaMessageType
  taskId : String
  data : Option (List Nat)
deriving DecidableEq, Repr

/-- Task progress flags, a bitmask as in the source: TaskStarted. -/
def TaskStarted : Nat := 1

/-- Task progress flag TaskCompleted. -/
def TaskCompleted : Nat := 2

/-- Task progress flag CompTaskStarted. -/
def CompTaskStarted : Nat := 4

/-- Task progress flag CompTaskCompleted. -/
def CompTaskCompleted : Nat := 8

/-- Opaque per-task data blobs recorded from task messages. -/
structure taskData where
  taskStart : Option (List Nat)
  taskEnd : Option (List Nat)
  compTaskStart : Option (List Nat)
  compTaskEnd : Option (List Nat)
deriving DecidableEq, Repr

/-- The current state of a saga. -/
structure SagaState where
  sagaId : String
  job : Option (List Nat)
  taskData : List (String × taskData)
  taskState : List (String × Nat)
  sagaAborted : Bool
  sagaCompleted : Bool
deriving DecidableEq, Repr

/-- Initialize a default empty saga state. -/
def initializeSagaState : SagaState :=
  { sagaId := ""
    job := none
    taskState := []
    taskData := []
    sagaAborted := false
    sagaCompleted := false }

/-- Flags recorded for a task, zero when the task is unknown (Go map read). -/
def SagaState.getFlags (state : SagaState) (taskId : String) : Nat :=
  (lookupAL state.taskState taskId).getD 0

/-- Returns true if the specified task has been started. -/
def SagaState.IsTaskStarted (state : SagaState) (taskId : String) : Bool :=
  Nat.land (state.getFlags taskId) TaskStarted != 0

/-- Returns true if the specified task has been completed. -/
def SagaState.IsTaskCompleted (state : SagaState) (taskId : String) : Bool :=
  Nat.land (state.getFlags taskId) TaskCompleted != 0

/-- Returns true if the specified compensating task has been started. -/
def SagaState.IsCompTaskStarted (state : SagaState) (taskId : String) : Bool :=
  Nat.land (state.getFlags taskId) CompTaskStarted != 0

/-- Returns true if the specified compensating task has been completed. -/
def SagaState.IsCompTaskCompleted (state : SagaState) (taskId : String) : Bool :=
  Nat.land (state.getFlags taskId) CompTaskCompleted != 0

/-- Returns true if this saga has been aborted. -/
def SagaState.IsSagaAborted (state : SagaState) : Bool :=
  state.sagaAborted

/-- Returns true if this saga has been completed. -/
def SagaState.IsSagaCompleted (state : SagaState) : Bool :=
  state.sagaCompleted

/-- Data associated with a StartTask message, nil when absent. -/
def SagaState.GetStartTaskData (state : SagaState) (taskId : String) : Option (List Nat) :=
  match lookupAL state.taskData taskId with
  | some d => d.taskStart
  | none => none

/-- Data associated with an EndTask message, nil when absent. -/
def SagaState.GetEndTaskData (state : SagaState) (taskId : String) : Option (List Nat) :=
  match lookupAL state.taskData taskId with
  | some d => d.taskEnd
  | none => none

/-- Add the data for the specified message type to the task metadata fields. -/
def SagaState.addTaskData (state : SagaState) (taskId : String) (msgType : SagaMessageType)
    (data : List Nat) : SagaState :=
  let tData := (lookupAL state.taskData taskId).getD
    { taskStart := none, taskEnd := none, compTaskStart := none, compTaskEnd := none }
  match msgType with
  | .StartTask =>
      { state with taskData := insertAL state.taskData taskId { tData with taskStart := some data } }
  | .EndTask =>
      { state with taskData := insertAL state.taskData taskId { tData with taskEnd := some data } }
  | .StartCompTask =>
      { state with taskData := insertAL state.taskData taskId { tData with compTaskStart := some data } }
  | .EndCompTask =>
      { state with taskData := insertAL state.taskData taskId { tData with compTaskEnd := some data } }
  | _ =>
      { state with taskData := insertAL state.taskData taskId tData }

/-- Creates a copy of the saga state; in this pure embedding the Go deep copy
is value-identical to its argument. -/
def copySagaState (s : SagaState) : SagaState := s

/-- Validates that a sagaId is valid: non-empty. -/
def validateSagaId (sagaId : String) : Option String :=
  if sagaId = "" then
    some "Invalid Saga Message: sagaId cannot be the empty string"
  else
    none

/-- Validates that a taskId is valid: non-empty. -/
def validateTaskId (taskId : String) : Option String :=
  if taskId = "" then
    some "Invalid Saga Message: taskId cannot be the empty string"
  else
    none

/-- The EndSaga loop over taskState: a successfully completed saga must have
completed all tasks, an aborted saga must have completed all compensating
tasks; returns the first rejection reason, none when all tasks pass. -/
def checkEndSagaTasks (state : SagaState) : List (String × Nat) → Option String
  | [] => none
  | (taskId, _) :: rest =>
    if state.sagaAborted then
      if !(state.IsCompTaskStarted taskId && state.IsCompTaskCompleted taskId) then
        some ("InvalidSagaState: End Saga Message cannot be applied to an aborted Saga where Task "
          ++ taskId ++ " has not completed its compensating Tasks")
      else
        checkEndSagaTasks state rest
    else
      if !(state.IsTaskCompleted taskId) then
        some ("InvalidSagaState: End Saga Message cannot be applied to a Saga where Task "
          ++ taskId ++ " has not completed")
      else
        checkEndSagaTasks state rest

/-- Applies the supplied message to the supplied saga state; returns the new
state, or an error if applying the message would result in an invalid state. -/
def updateSagaState (s : SagaState) (msg : sagaMessage) : Except String SagaState :=
  let state := copySagaState s
  if msg.sagaId ≠ state.sagaId then
    .error ("InvalidSagaMessage: sagaId " ++ state.sagaId ++ " & SagaMessage sagaId "
      ++ msg.sagaId ++ " do not match")
  else
    match msg.msgType with
    | .StartSaga =>
        .error "InvalidSagaState: Cannot apply a StartSaga Message to an already existing Saga"
    | .EndSaga =>
        match checkEndSagaTasks state state.taskState with
        | some e => .error e
        | none => .ok { state with sagaCompleted := true }
    | .AbortSaga =>
        if state.IsSagaCompleted then
          .error "InvalidSagaState: AbortSaga Message cannot be applied to a Completed Saga"
        else
          .ok { state with sagaAborted := true }
    | .StartTask =>
        match validateTaskId msg.taskId with
        | some e => .error e
        | none =>
          if state.IsSagaCompleted then
            .error "InvalidSagaState: Cannot StartTask after Saga has been completed"
          else if state.IsSagaAborted then
            .error "InvalidSagaState: Cannot StartTask after Saga has been aborted"
          else if state.IsTaskCompleted msg.taskId then
            .error "InvalidSagaState: Cannot StartTask after it has been completed"
          else
            let state2 := match msg.data with
              | some d => state.addTaskData msg.taskId msg.msgType d
              | none => state
            .ok { state2 with taskState := insertAL state2.taskState msg.taskId TaskStarted }
    | .EndTask =>
        match validateTaskId msg.taskId with
        | some e => .error e
        | none =>
          if state.IsSagaCompleted then
            .error "InvalidSagaState: Cannot EndTask after Saga has been completed"
          else if state.IsSagaAborted then
            .error "InvalidSagaState: Cannot EndTask after an Abort Saga Message"
          else if !(state.IsTaskStarted msg.taskId) then
            .error ("InvalidSagaState: Cannot have a EndTask " ++ msg.taskId
              ++ " Message Before a StartTask " ++ msg.taskId ++ " Message")
          else
            let newFlags := Nat.lor (state.getFlags msg.taskId) TaskCompleted
            let state2 := { state with taskState := insertAL state.taskState msg.taskId newFlags }
            match msg.data with
            | some d => .ok (state2.addTaskData msg.taskId msg.msgType d)
            | none => .ok state2
    | .StartCompTask =>
        match validateTaskId msg.taskId with
        | some e => .error e
        | none =>
          if state.IsSagaCompleted then
            .error "InvalidSagaState: Cannot StartCompTask after Saga has been completed"
          else if !(state.IsSagaAborted) then
            .error ("InvalidSagaState: Cannot have a StartCompTask " ++ msg.taskId
              ++ " Message when Saga has not been Aborted")
          else if !(state.IsTaskStarted msg.taskId) then
            .error ("InvalidSagaState: Cannot have a StartCompTask " ++ msg.taskId
              ++ " Message Before a StartTask " ++ msg.taskId ++ " Message")
          else if state.IsCompTaskCompleted msg.taskId then
            .error ("InvalidSagaState: Cannot StartCompTask after it has been completed.  taskId: "
              ++ msg.taskId)
          else
            let newFlags := Nat.lor (state.getFlags msg.taskId) CompTaskStarted
            let state2 := { state with taskState := insertAL state.taskState msg.taskId newFlags }
            match msg.data with
            | some d => .ok (state2.addTaskData msg.taskId msg.msgType d)
            | none => .ok state2
    | .EndCompTask =>
        match validateTaskId msg.taskId with
        | some e => .error e
        | none =>
          if state.IsSagaCompleted then
            .error "InvalidSagaState: Cannot EndCompTask after Saga has been completed"
          else if !(state.IsSagaAborted) then
            .error ("InvalidSagaState: Cannot have a EndCompTask " ++ msg.taskId
              ++ " Message when Saga has not been Aborted")
          else if !(state.IsTaskStarted msg.taskId) then
            .error ("InvalidSagaState: Cannot have a StartCompTask " ++ msg.taskId
              ++ " Message Before a StartTask " ++ msg.taskId ++ " Message")
          else if !(state.IsCompTaskStarted msg.taskId) then
            .error ("InvalidSagaState: Cannot have a EndCompTask " ++ msg.taskId
              ++ " Message Before a StartCompTaks " ++ msg.taskId ++ " Message")
          else
            let state2 := match msg.data with
              | some d => state.addTaskData msg.taskId msg.msgType d
              | none => state
            let newFlags := Nat.lor (state2.getFlags msg.taskId) CompTaskCompleted
            .ok { state2 with taskState := insertAL state2.taskState msg.taskId newFlags }

/-- Initialize a SagaState for the specified saga and job. -/
def makeSagaState (sagaId : String) (job : Option (List Nat)) : Except String SagaState :=
  let state := initializeSagaState
  match validateSagaId sagaId with
  | some e => .error e
  | none => .ok { state with sagaId := sagaId, job := job }

/-- In-memory implementation of a saga log: a map from sagaId to the
sequence of messages logged for that saga. -/
structure inMemorySagaLog where
  sagas : List (String × List sagaMessage)
deriving DecidableEq, Repr

/-- Modelled from the spec: MakeStartSagaMessage is declared outside the
given source files; it builds the StartSaga message carrying the sagaId and
the job payload, with no taskId. -/
def MakeStartSagaMessage (sagaId : String) (job : Option (List Nat)) : sagaMessage :=
  { sagaId := sagaId, msgType := .StartSaga, taskId := "", data := job }

/-- Appends a message to the per-saga log; fails when the saga has not been
started yet. -/
def inMemorySagaLog.LogMessage (log : inMemorySagaLog) (msg : sagaMessage) :
    Except String inMemorySagaLog :=
  match lookupAL log.sagas msg.sagaId with
  | none => .error ("Saga: " ++ msg.sagaId ++ " is not Started yet.")
  | some msgs => .ok { sagas := insertAL log.sagas msg.sagaId (msgs ++ [msg]) }

/-- Starts a saga in the log: stores a single StartSaga message under the
sagaId, overwriting any existing entry. -/
def inMemorySagaLog.StartSaga (log : inMemorySagaLog) (sagaId : String)
    (job : Option (List Nat)) : Except String inMemorySagaLog :=
  .ok { sagas := insertAL log.sagas sagaId [MakeStartSagaMessage sagaId job] }

/-- Returns the messages logged for a saga, the empty sequence when unknown. -/
def inMemorySagaLog.GetMessages (log : inMemorySagaLog) (sagaId : String) :
    Except String (List sagaMessage) :=
  match lookupAL log.sagas sagaId with
  | some msgs => .ok msgs
  | none => .ok []

/-- Returns all sagas started in this log. -/
def inMemorySagaLog.GetActiveSagas (log : inMemorySagaLog) :
    Except String (List String) :=
  .ok (log.sagas.map Prod.fst)

/-- One call against the in-memory log that can change it. -/
inductive LogOp where
  | start : String → Option (List Nat) → LogOp
  | append : sagaMessage → LogOp
deriving DecidableEq, Repr

/-- Applies a log call; a failed LogMessage leaves the log unchanged. -/
def applyLogOp (log : inMemorySagaLog) (op : LogOp) : inMemorySagaLog :=
  match op with
  | .start sagaId job =>
      match log.StartSaga sagaId job with
      | .ok l => l
      | .error _ => log
  | .append msg =>
      match log.LogMessage msg with
      | .ok l => l
      | .error _ => log

/-- The log produced by a sequence of calls starting from the empty log. -/
def runLogOps (ops : List LogOp) : inMemorySagaLog :=
  ops.foldl applyLogOp { sagas := [] }

/-- Modelled from the spec: one step of the per-saga sequence the SagaLog
contract prescribes for the given sagaId. -/
def expectedStep (sagaId : String) (acc : Option (List sagaMessage)) (op : LogOp) :
    Option (List sagaMessage) :=
  match op with
  | .start sagaId' job =>
      if sagaId' = sagaId then some [MakeStartSagaMessage sagaId' job] else acc
  | .append msg =>
      if msg.sagaId = sagaId then
        match acc with
        | some l => some (l ++ [msg])
        | none => none
      else acc

/-- Modelled from the spec: the per-saga sequence a log trace should produce,
per the SagaLog contract: the most recent StartSaga first, then each
successful LogMessage for that saga in call order; none when never started. -/
def expectedSagaSeq (ops : List LogOp) (sagaId : String) : Option (List sagaMessage) :=
  ops.foldl (expectedStep sagaId) none

/-- Is the operation a StartSaga call for the given sagaId. -/
def startsFor (sagaId : String) : LogOp → Bool
  | .start sagaId' _ => sagaId' = sagaId
  | .append _ => false

/-- Spec-side EndSaga acceptance condition: when the saga is aborted every
task has started and completed its compensating task, otherwise every task
has completed. -/
def endSagaReady (s : SagaState) : Bool :=
  s.taskState.all fun p =>
    if s.sagaAborted then
      s.IsCompTaskStarted p.1 && s.IsCompTaskCompleted p.1
    else
      s.IsTaskCompleted p.1

/-- The task-flag invariants of the saga data model: a completed task was
started, a started compensating task implies an aborted saga and a started
task, and a completed compensating task was started. -/
def StateInv (s : SagaState) : Prop :=
  ∀ t : String,
    (s.IsTaskCompleted t = true → s.IsTaskStarted t = true) ∧
    (s.IsCompTaskStarted t = true → s.sagaAborted = true ∧ s.IsTaskStarted t = true) ∧
    (s.IsCompTaskCompleted t = true → s.IsCompTaskStarted t = true)

/-- Saga states reachable from makeSagaState by accepted updates. -/
inductive ReachableState : SagaState → Prop where
  | init (sagaId : String) (job : Option (List Nat)) (s : SagaState) :
      makeSagaState sagaId job = .ok s → ReachableState s
  | step (s : SagaState) (msg : sagaMessage) (s' : SagaState) :
      ReachableState s → updateSagaState s msg = .ok s' → ReachableState s'

/-- Lookup in an association list after inserting at the same key. -/
theorem lookupAL_insertAL_self {α : Type} (l : List (String × α)) (k : String) (v : α) :
    lookupAL (insertAL l k v) k = some v := by
  induction l with
  | nil => simp [insertAL, lookupAL]
  | cons p rest ih =>
    obtain ⟨k', v'⟩ := p
    by_cases h : k' = k
    · simp [insertAL, h, lookupAL]
    · simp [insertAL, h, lookupAL, ih]

/-- Lookup in an association list after inserting at a different key. -/
theorem lookupAL_insertAL_ne {α : Type} (l : List (String × α)) (k k' : String) (v : α)
    (h : k' ≠ k) : lookupAL (insertAL l k v) k' = lookupAL l k' := by
  have hkk : ¬(k = k') := fun hk => h hk.symm
  induction l with
  | nil => simp [insertAL, lookupAL, hkk]
  | cons p rest ih =>
    obtain ⟨a, b⟩ := p
    by_cases ha : a = k
    · simp [insertAL, ha, lookupAL, hkk]
    · by_cases hb : a = k'
      · simp [insertAL, ha, lookupAL, hb, h]
      · simp [insertAL, ha, lookupAL, hb, ih]

/-- The inserted key is among the keys after an insert. -/
theorem insertAL_mem_keys {α : Type} (l : List (String × α)) (k : String) (v : α) :
    k ∈ (insertAL l k v).map Prod.fst := by
  induction l with
  | nil => simp [insertAL]
  | cons p rest ih =>
    obtain ⟨a, b⟩ := p
    by_cases ha : a = k
    · simp [insertAL, ha]
    · simp only [insertAL, if_neg ha, List.map_cons, List.mem_cons]
      exact Or.inr ih

/-- Substring containment is preserved by prepending text. -/
theorem listHasSub_append_right (a : List Char) (b t : List Char)
    (h : listHasSub b t = true) : listHasSub (a ++ b) t = true := by
  induction a with
  | nil => simpa using h
  | cons c cs ih =>
    simp only [List.cons_append, listHasSub, Bool.or_eq_true]
    exact Or.inr ih

/-- An error message that ends in a phrase mentions that phrase. -/
theorem strContains_append_right (a b sub : String)
    (h : strContains b sub = true) : strContains (a ++ b) sub = true := by
  have hd : (a ++ b).data = a.data ++ b.data := String.data_append a b
  unfold strContains
  rw [hd]
  exact listHasSub_append_right a.data b.data sub.data h

/-- A single-bit mask test is the corresponding testBit. -/
theorem land_two_pow_ne_zero (x i : Nat) :
    (Nat.land x (2 ^ i) != 0) = x.testBit i := by
  have hx : Nat.land x (2 ^ i) = x &&& 2 ^ i := rfl
  rw [hx, Nat.and_two_pow]
  cases h : x.testBit i
  · simp
  · have h2 : (2 : Nat) ^ i ≠ 0 := (Nat.two_pow_pos i).ne'
    simp [h2]

/-- IsTaskStarted reads bit 0 of the flags. -/
theorem IsTaskStarted_eq_testBit (s : SagaState) (t : String) :
    s.IsTaskStarted t = (s.getFlags t).testBit 0 := by
  have h : TaskStarted = 2 ^ 0 := rfl
  rw [SagaState.IsTaskStarted, h, land_two_pow_ne_zero]

/-- IsTaskCompleted reads bit 1 of the flags. -/
theorem IsTaskCompleted_eq_testBit (s : SagaState) (t : String) :
    s.IsTaskCompleted t = (s.getFlags t).testBit 1 := by
  have h : TaskCompleted = 2 ^ 1 := rfl
  rw [SagaState.IsTaskCompleted, h, land_two_pow_ne_zero]

/-- IsCompTaskStarted reads bit 2 of the flags. -/
theorem IsCompTaskStarted_eq_testBit (s : SagaState) (t : String) :
    s.IsCompTaskStarted t = (s.getFlags t).testBit 2 := by
  have h : CompTaskStarted = 2 ^ 2 := rfl
  rw [SagaState.IsCompTaskStarted, h, land_two_pow_ne_zero]

/-- IsCompTaskCompleted reads bit 3 of the flags. -/
theorem IsCompTaskCompleted_eq_testBit (s : SagaState) (t : String) :
    s.IsCompTaskCompleted t = (s.getFlags t).testBit 3 := by
  have h : CompTaskCompleted = 2 ^ 3 := rfl
  rw [SagaState.IsCompTaskCompleted, h, land_two_pow_ne_zero]

/-- addTaskData preserves the taskState field. -/
theorem addTaskData_taskState (s : SagaState) (t : String) (mt : SagaMessageType)
    (d : List Nat) : (s.addTaskData t mt d).taskState = s.taskState := by
  cases mt <;> rfl

/-- addTaskData preserves the sagaId field. -/
theorem addTaskData_sagaId (s : SagaState) (t : String) (mt : SagaMessageType)
    (d : List Nat) : (s.addTaskData t mt d).sagaId = s.sagaId := by
  cases mt <;> rfl

/-- addTaskData preserves the job field. -/
theorem addTaskData_job (s : SagaState) (t : String) (mt : SagaMessageType)
    (d : List Nat) : (s.addTaskData t mt d).job = s.job := by
  cases mt <;> rfl

/-- addTaskData preserves the sagaAborted field. -/
theorem addTaskData_sagaAborted (s : SagaState) (t : String) (mt : SagaMessageType)
    (d : List Nat) : (s.addTaskData t mt d).sagaAborted = s.sagaAborted := by
  cases mt <;> rfl

/-- addTaskData preserves the sagaCompleted field. -/
theorem addTaskData_sagaCompleted (s : SagaState) (t : String) (mt : SagaMessageType)
    (d : List Nat) : (s.addTaskData t mt d).sagaCompleted = s.sagaCompleted := by
  cases mt <;> rfl

/-- An accepted message carries the sagaId of the state. -/
theorem update_ok_sagaId_match (s : SagaState) (msg : sagaMessage) (s' : SagaState)
    (h : updateSagaState s msg = .ok s') : msg.sagaId = s.sagaId := by
  by_contra hne
  simp [updateSagaState, copySagaState, hne] at h

/-- Inversion for an accepted StartTask message. -/
theorem updateStartTask_ok (s : SagaState) (msg : sagaMessage) (s' : SagaState)
    (ht : msg.msgType = .StartTask) (h : updateSagaState s msg = .ok s') :
    msg.sagaId = s.sagaId ∧ msg.taskId ≠ "" ∧ s.sagaCompleted = false ∧
    s.sagaAborted = false ∧ s.IsTaskCompleted msg.taskId = false ∧
    s'.taskState = insertAL s.taskState msg.taskId TaskStarted ∧
    s'.sagaAborted = s.sagaAborted ∧ s'.sagaCompleted = s.sagaCompleted ∧
    s'.sagaId = s.sagaId ∧ s'.job = s.job := by
  have hid : msg.sagaId = s.sagaId := update_ok_sagaId_match s msg s' h
  simp only [updateSagaState, copySagaState, ht, hid, ne_eq, not_true_eq_false, if_false,
    ite_false] at h
  cases hv : validateTaskId msg.taskId with
  | some e =>
    rw [hv] at h
    simp at h
  | none =>
    rw [hv] at h
    have hvne : msg.taskId ≠ "" := by
      intro he
      rw [validateTaskId, if_pos he] at hv
      cases hv
    cases hc : s.sagaCompleted with
    | true => simp [SagaState.IsSagaCompleted, hc] at h
    | false =>
    cases ha : s.sagaAborted with
    | true => simp [SagaState.IsSagaCompleted, SagaState.IsSagaAborted, hc, ha] at h
    | false =>
    cases htc : s.IsTaskCompleted msg.taskId with
    | true => simp [SagaState.IsSagaCompleted, SagaState.IsSagaAborted, hc, ha, htc] at h
    | false =>
      simp [SagaState.IsSagaCompleted, SagaState.IsSagaAborted, hc, ha, htc] at h
      subst h
      refine ⟨hid, hvne, rfl, rfl, rfl, ?_, ?_, ?_, ?_, ?_⟩ <;>
        cases hd : msg.data <;>
          simp [addTaskData_taskState, addTaskData_sagaId, addTaskData_job,
            addTaskData_sagaAborted, addTaskData_sagaCompleted, hc, ha]

/-- A StartSaga message is never accepted. -/
theorem updateStartSaga_never_ok (s : SagaState) (msg : sagaMessage) (s' : SagaState)
    (ht : msg.msgType = .StartSaga) (h : updateSagaState s msg = .ok s') : False := by
  have hid : msg.sagaId = s.sagaId := update_ok_sagaId_match s msg s' h
  simp [updateSagaState, copySagaState, ht, hid] at h

/-- Inversion for an accepted EndSaga message. -/
theorem updateEndSaga_ok (s : SagaState) (msg : sagaMessage) (s' : SagaState)
    (ht : msg.msgType = .EndSaga) (h : updateSagaState s msg = .ok s') :
    msg.sagaId = s.sagaId ∧ checkEndSagaTasks s s.taskState = none ∧
    s' = { s with sagaCompleted := true } := by
  have hid : msg.sagaId = s.sagaId := update_ok_sagaId_match s msg s' h
  simp only [updateSagaState, copySagaState, ht, hid, ne_eq, not_true_eq_false, if_false,
    ite_false] at h
  cases hcheck : checkEndSagaTasks s s.taskState with
  | some e =>
    rw [hcheck] at h
    simp at h
  | none =>
    rw [hcheck] at h
    simp at h
    exact ⟨hid, rfl, h.symm⟩

/-- Inversion for an accepted AbortSaga message. -/
theorem updateAbortSaga_ok (s : SagaState) (msg : sagaMessage) (s' : SagaState)
    (ht : msg.msgType = .AbortSaga) (h : updateSagaState s msg = .ok s') :
    msg.sagaId = s.sagaId ∧ s.sagaCompleted = false ∧
    s' = { s with sagaAborted := true } := by
  have hid : msg.sagaId = s.sagaId := update_ok_sagaId_match s msg s' h
  simp only [updateSagaState, copySagaState, ht, hid, ne_eq, not_true_eq_false, if_false,
    ite_false] at h
  cases hc : s.sagaCompleted with
  | true => simp [SagaState.IsSagaCompleted, hc] at h
  | false =>
    simp [SagaState.IsSagaCompleted, hc] at h
    exact ⟨hid, rfl, h.symm⟩

/-- Inversion for an accepted EndTask message. -/
theorem updateEndTask_ok (s : SagaState) (msg : sagaMessage) (s' : SagaState)
    (ht : msg.msgType = .EndTask) (h : updateSagaState s msg = .ok s') :
    msg.sagaId = s.sagaId ∧ msg.taskId ≠ "" ∧ s.sagaCompleted = false ∧
    s.sagaAborted = false ∧ s.IsTaskStarted msg.taskId = true ∧
    s'.taskState = insertAL s.taskState msg.taskId
      (Nat.lor (s.getFlags msg.taskId) TaskCompleted) ∧
    s'.sagaAborted = s.sagaAborted ∧ s'.sagaCompleted = s.sagaCompleted ∧
    s'.sagaId = s.sagaId ∧ s'.job = s.job := by
  have hid : msg.sagaId = s.sagaId := update_ok_sagaId_match s msg s' h
  simp only [updateSagaState, copySagaState, ht, hid, ne_eq, not_true_eq_false, if_false,
    ite_false] at h
  cases hv : validateTaskId msg.taskId with
  | some e =>
    rw [hv] at h
    simp at h
  | none =>
    rw [hv] at h
    have hvne : msg.taskId ≠ "" := by
      intro he
      rw [validateTaskId, if_pos he] at hv
      cases hv
    cases hc : s.sagaCompleted with
    | true => simp [SagaState.IsSagaCompleted, hc] at h
    | false =>
    cases ha : s.sagaAborted with
    | true => simp [SagaState.IsSagaCompleted, SagaState.IsSagaAborted, hc, ha] at h
    | false =>
    cases hts : s.IsTaskStarted msg.taskId with
    | false => simp [SagaState.IsSagaCompleted, SagaState.IsSagaAborted, hc, ha, hts] at h
    | true =>
      simp only [SagaState.IsSagaCompleted, SagaState.IsSagaAborted, hc, ha, hts,
        Bool.not_true, Bool.false_eq_true, if_false, ite_false] at h
      cases hd : msg.data with
      | none =>
        rw [hd] at h
        simp at h
        subst h
        refine ⟨hid, hvne, rfl, rfl, rfl, ?_, ?_, ?_, ?_, ?_⟩ <;> simp
      | some d =>
        rw [hd] at h
        simp at h
        subst h
        refine ⟨hid, hvne, rfl, rfl, rfl, ?_, ?_, ?_, ?_, ?_⟩ <;>
          simp [addTaskData_taskState, addTaskData_sagaId, addTaskData_job,
            addTaskData_sagaAborted, addTaskData_sagaCompleted]

/-- Inversion for an accepted StartCompTask message. -/
theorem updateStartCompTask_ok (s : SagaState) (msg : sagaMessage) (s' : SagaState)
    (ht : msg.msgType = .StartCompTask) (h : updateSagaState s msg = .ok s') :
    msg.sagaId = s.sagaId ∧ msg.taskId ≠ "" ∧ s.sagaCompleted = false ∧
    s.sagaAborted = true ∧ s.IsTaskStarted msg.taskId = true ∧
    s.IsCompTaskCompleted msg.taskId = false ∧
    s'.taskState = insertAL s.taskState msg.taskId
      (Nat.lor (s.getFlags msg.taskId) CompTaskStarted) ∧
    s'.sagaAborted = s.sagaAborted ∧ s'.sagaCompleted = s.sagaCompleted ∧
    s'.sagaId = s.sagaId ∧ s'.job = s.job := by
  have hid : msg.sagaId = s.sagaId := update_ok_sagaId_match s msg s' h
  simp only [updateSagaState, copySagaState, ht, hid, ne_eq, not_true_eq_false, if_false,
    ite_false] at h
  cases hv : validateTaskId msg.taskId with
  | some e =>
    rw [hv] at h
    simp at h
  | none =>
    rw [hv] at h
    have hvne : msg.taskId ≠ "" := by
      intro he
      rw [validateTaskId, if_pos he] at hv
      cases hv
    cases hc : s.sagaCompleted with
    | true => simp [SagaState.IsSagaCompleted, hc] at h
    | false =>
    cases ha : s.sagaAborted with
    | false => simp [SagaState.IsSagaCompleted, SagaState.IsSagaAborted, hc, ha] at h
    | true =>
    cases hts : s.IsTaskStarted msg.taskId with
    | false => simp [SagaState.IsSagaCompleted, SagaState.IsSagaAborted, hc, ha, hts] at h
    | true =>
    cases hcc : s.IsCompTaskCompleted msg.taskId with
    | true => simp [SagaState.IsSagaCompleted, SagaState.IsSagaAborted, hc, ha, hts, hcc] at h
    | false =>
      simp only [SagaState.IsSagaCompleted, SagaState.IsSagaAborted, hc, ha, hts, hcc,
        Bool.not_true, Bool.false_eq_true, if_false, ite_false] at h
      cases hd : msg.data with
      | none =>
        rw [hd] at h
        simp at h
        subst h
        refine ⟨hid, hvne, rfl, rfl, rfl, rfl, ?_, ?_, ?_, ?_, ?_⟩ <;> simp
      | some d =>
        rw [hd] at h
        simp at h
        subst h
        refine ⟨hid, hvne, rfl, rfl, rfl, rfl, ?_, ?_, ?_, ?_, ?_⟩ <;>
          simp [addTaskData_taskState, addTaskData_sagaId, addTaskData_job,
            addTaskData_sagaAborted, addTaskData_sagaCompleted]

/-- Inversion for an accepted EndCompTask message. -/
theorem updateEndCompTask_ok (s : SagaState) (msg : sagaMessage) (s' : SagaState)
    (ht : msg.msgType = .EndCompTask) (h : updateSagaState s msg = .ok s') :
    msg.sagaId = s.sagaId ∧ msg.taskId ≠ "" ∧ s.sagaCompleted = false ∧
    s.sagaAborted = true ∧ s.IsTaskStarted msg.taskId = true ∧
    s.IsCompTaskStarted msg.taskId = true ∧
    s'.taskState = insertAL s.taskState msg.taskId
      (Nat.lor (s.getFlags msg.taskId) CompTaskCompleted) ∧
    s'.sagaAborted = s.sagaAborted ∧ s'.sagaCompleted = s.sagaCompleted ∧
    s'.sagaId = s.sagaId ∧ s'.job = s.job := by
  have hid : msg.sagaId = s.sagaId := update_ok_sagaId_match s msg s' h
  simp only [updateSagaState, copySagaState, ht, hid, ne_eq, not_true_eq_false, if_false,
    ite_false] at h
  cases hv : validateTaskId msg.taskId with
  | some e =>
    rw [hv] at h
    simp at h
  | none =>
    rw [hv] at h
    have hvne : msg.taskId ≠ "" := by
      intro he
      rw [validateTaskId, if_pos he] at hv
      cases hv
    cases hc : s.sagaCompleted with
    | true => simp [SagaState.IsSagaCompleted, hc] at h
    | false =>
    cases ha : s.sagaAborted with
    | false => simp [SagaState.IsSagaCompleted, SagaState.IsSagaAborted, hc, ha] at h
    | true =>
    cases hts : s.IsTaskStarted msg.taskId with
    | false => simp [SagaState.IsSagaCompleted, SagaState.IsSagaAborted, hc, ha, hts] at h
    | true =>
    cases hcs : s.IsCompTaskStarted msg.taskId with
    | false => simp [SagaState.IsSagaCompleted, SagaState.IsSagaAborted, hc, ha, hts, hcs] at h
    | true =>
      simp only [SagaState.IsSagaCompleted, SagaState.IsSagaAborted, hc, ha, hts, hcs,
        Bool.not_true, Bool.false_eq_true, if_false, ite_false] at h
      cases hd : msg.data with
      | none =>
        rw [hd] at h
        simp at h
        subst h
        refine ⟨hid, hvne, ?_, ?_, ?_, ?_, ?_, ?_, ?_, ?_, ?_⟩ <;>
          first
          | exact hc
          | exact ha
          | exact hts
          | exact hcs
          | simp [hc, ha]
      | some d =>
        rw [hd] at h
        simp at h
        subst h
        refine ⟨hid, hvne, ?_, ?_, ?_, ?_, ?_, ?_, ?_, ?_, ?_⟩ <;>
          first
          | exact hc
          | exact ha
          | exact hts
          | exact hcs
          | simp [addTaskData_taskState, addTaskData_sagaId, addTaskData_job,
              addTaskData_sagaAborted, addTaskData_sagaCompleted, SagaState.getFlags, hc, ha]

/-- Flags of the written key after a taskState insert. -/
theorem getFlags_insert_self (s s' : SagaState) (key : String) (v : Nat)
    (hts : s'.taskState = insertAL s.taskState key v) : s'.getFlags key = v := by
  rw [SagaState.getFlags, hts, lookupAL_insertAL_self]
  rfl

/-- Flags of any other key after a taskState insert. -/
theorem getFlags_insert_other (s s' : SagaState) (key t : String) (v : Nat)
    (hts : s'.taskState = insertAL s.taskState key v) (hne : t ≠ key) :
    s'.getFlags t = s.getFlags t := by
  rw [SagaState.getFlags, hts, lookupAL_insertAL_ne _ _ _ _ hne, SagaState.getFlags]

/-- A set bit stays set after an or. -/
theorem testBit_lor_left (x y i : Nat) (h : x.testBit i = true) :
    (Nat.lor x y).testBit i = true := by
  have hxy : Nat.lor x y = x ||| y := rfl
  rw [hxy, Nat.testBit_lor, h]
  rfl

/-- A bit set after an or with a mask missing that bit was set before. -/
theorem testBit_lor_elim (x y i : Nat) (hy : y.testBit i = false)
    (h : (Nat.lor x y).testBit i = true) : x.testBit i = true := by
  have hxy : Nat.lor x y = x ||| y := rfl
  rw [hxy, Nat.testBit_lor, hy] at h
  simpa using h

/-- The four flag tests transport along equal flags. -/
theorem flags_eq_of_getFlags_eq (s s' : SagaState) (t : String)
    (h : s'.getFlags t = s.getFlags t) :
    s'.IsTaskStarted t = s.IsTaskStarted t ∧
    s'.IsTaskCompleted t = s.IsTaskCompleted t ∧
    s'.IsCompTaskStarted t = s.IsCompTaskStarted t ∧
    s'.IsCompTaskCompleted t = s.IsCompTaskCompleted t := by
  refine ⟨?_, ?_, ?_, ?_⟩
  · simp only [SagaState.IsTaskStarted, h]
  · simp only [SagaState.IsTaskCompleted, h]
  · simp only [SagaState.IsCompTaskStarted, h]
  · simp only [SagaState.IsCompTaskCompleted, h]

/-- A state with no tasks satisfies the flag invariants. -/
theorem stateInv_of_no_tasks (s : SagaState) (h : s.taskState = []) : StateInv s := by
  intro t
  have h0 : s.getFlags t = 0 := by
    rw [SagaState.getFlags, h]
    rfl
  refine ⟨?_, ?_, ?_⟩
  · intro hb
    rw [SagaState.IsTaskCompleted, h0] at hb
    exact absurd hb (by decide)
  · intro hb
    rw [SagaState.IsCompTaskStarted, h0] at hb
    exact absurd hb (by decide)
  · intro hb
    rw [SagaState.IsCompTaskCompleted, h0] at hb
    exact absurd hb (by decide)

/-- Inversion of a successful makeSagaState. -/
theorem makeSagaState_ok_inv (sagaId : String) (job : Option (List Nat)) (s : SagaState)
    (h : makeSagaState sagaId job = .ok s) :
    sagaId ≠ "" ∧ s = { sagaId := sagaId, job := job, taskData := [], taskState := [],
                        sagaAborted := false, sagaCompleted := false } := by
  by_cases he : sagaId = ""
  · simp [makeSagaState, validateSagaId, he] at h
  · simp [makeSagaState, validateSagaId, he, initializeSagaState] at h
    exact ⟨he, h.symm⟩

/-- A bit of the mask is set after an or with the mask. -/
theorem testBit_lor_right (x y i : Nat) (h : y.testBit i = true) :
    (Nat.lor x y).testBit i = true := by
  have hxy : Nat.lor x y = x ||| y := rfl
  rw [hxy, Nat.testBit_lor, h]
  simp

/-- The per-task invariants transport to a state with the same flags whose
aborted bit did not fall. -/
theorem stateInv_at_transport (s s' : SagaState) (t : String)
    (hf : s'.getFlags t = s.getFlags t)
    (habmono : s.sagaAborted = true → s'.sagaAborted = true)
    (ht1 : s.IsTaskCompleted t = true → s.IsTaskStarted t = true)
    (ht2 : s.IsCompTaskStarted t = true → s.sagaAborted = true ∧ s.IsTaskStarted t = true)
    (ht3 : s.IsCompTaskCompleted t = true → s.IsCompTaskStarted t = true) :
    (s'.IsTaskCompleted t = true → s'.IsTaskStarted t = true) ∧
    (s'.IsCompTaskStarted t = true → s'.sagaAborted = true ∧ s'.IsTaskStarted t = true) ∧
    (s'.IsCompTaskCompleted t = true → s'.IsCompTaskStarted t = true) := by
  obtain ⟨e1, e2, e3, e4⟩ := flags_eq_of_getFlags_eq s s' t hf
  refine ⟨?_, ?_, ?_⟩
  · intro hb
    rw [e2] at hb
    rw [e1]
    exact ht1 hb
  · intro hb
    rw [e3] at hb
    obtain ⟨hA, hT⟩ := ht2 hb
    refine ⟨habmono hA, ?_⟩
    rw [e1]
    exact hT
  · intro hb
    rw [e4] at hb
    rw [e3]
    exact ht3 hb

/-- One accepted update preserves the flag invariants. -/
theorem stateInv_step (s : SagaState) (msg : sagaMessage) (s' : SagaState)
    (inv : StateInv s) (h : updateSagaState s msg = .ok s') : StateInv s' := by
  cases hmt : msg.msgType with
  | StartSaga => exact (updateStartSaga_never_ok s msg s' hmt h).elim
  | EndSaga =>
    obtain ⟨-, -, hs⟩ := updateEndSaga_ok s msg s' hmt h
    subst hs
    intro t
    obtain ⟨h1, h2, h3⟩ := inv t
    exact stateInv_at_transport s _ t rfl (fun hA => hA) h1 h2 h3
  | AbortSaga =>
    obtain ⟨-, -, hs⟩ := updateAbortSaga_ok s msg s' hmt h
    subst hs
    intro t
    obtain ⟨h1, h2, h3⟩ := inv t
    exact stateInv_at_transport s _ t rfl (fun _ => rfl) h1 h2 h3
  | StartTask =>
    obtain ⟨-, -, -, -, -, hts, hab, -, -, -⟩ := updateStartTask_ok s msg s' hmt h
    intro t
    by_cases hkey : t = msg.taskId
    · subst hkey
      have hf : s'.getFlags msg.taskId = TaskStarted :=
        getFlags_insert_self s s' msg.taskId TaskStarted hts
      refine ⟨?_, ?_, ?_⟩
      · intro hb
        rw [SagaState.IsTaskCompleted, hf] at hb
        exact absurd hb (by decide)
      · intro hb
        rw [SagaState.IsCompTaskStarted, hf] at hb
        exact absurd hb (by decide)
      · intro hb
        rw [SagaState.IsCompTaskCompleted, hf] at hb
        exact absurd hb (by decide)
    · have hf := getFlags_insert_other s s' msg.taskId t TaskStarted hts hkey
      obtain ⟨h1, h2, h3⟩ := inv t
      exact stateInv_at_transport s s' t hf (fun hA => by rw [hab]; exact hA) h1 h2 h3
  | EndTask =>
    obtain ⟨-, -, -, ha, hstart, hts, hab, -, -, -⟩ := updateEndTask_ok s msg s' hmt h
    intro t
    by_cases hkey : t = msg.taskId
    · subst hkey
      have hf : s'.getFlags msg.taskId = Nat.lor (s.getFlags msg.taskId) TaskCompleted :=
        getFlags_insert_self s s' msg.taskId _ hts
      have hTS : s'.IsTaskStarted msg.taskId = true := by
        rw [IsTaskStarted_eq_testBit, hf]
        refine testBit_lor_left _ _ 0 ?_
        rw [← IsTaskStarted_eq_testBit]
        exact hstart
      obtain ⟨h1, h2, h3⟩ := inv msg.taskId
      refine ⟨fun _ => hTS, ?_, ?_⟩
      · intro hb
        rw [IsCompTaskStarted_eq_testBit, hf] at hb
        have hcs : s.IsCompTaskStarted msg.taskId = true := by
          rw [IsCompTaskStarted_eq_testBit]
          exact testBit_lor_elim _ _ 2 (by decide) hb
        have hATrue := (h2 hcs).1
        rw [ha] at hATrue
        cases hATrue
      · intro hb
        rw [IsCompTaskCompleted_eq_testBit, hf] at hb
        have hcc : s.IsCompTaskCompleted msg.taskId = true := by
          rw [IsCompTaskCompleted_eq_testBit]
          exact testBit_lor_elim _ _ 3 (by decide) hb
        have hATrue := (h2 (h3 hcc)).1
        rw [ha] at hATrue
        cases hATrue
    · have hf := getFlags_insert_other s s' msg.taskId t _ hts hkey
      obtain ⟨h1, h2, h3⟩ := inv t
      exact stateInv_at_transport s s' t hf (fun hA => by rw [hab]; exact hA) h1 h2 h3
  | StartCompTask =>
    obtain ⟨-, -, -, ha, hstart, -, hts, hab, -, -, -⟩ := updateStartCompTask_ok s msg s' hmt h
    intro t
    by_cases hkey : t = msg.taskId
    · subst hkey
      have hf : s'.getFlags msg.taskId = Nat.lor (s.getFlags msg.taskId) CompTaskStarted :=
        getFlags_insert_self s s' msg.taskId _ hts
      have hTS : s'.IsTaskStarted msg.taskId = true := by
        rw [IsTaskStarted_eq_testBit, hf]
        refine testBit_lor_left _ _ 0 ?_
        rw [← IsTaskStarted_eq_testBit]
        exact hstart
      have hCTS : s'.IsCompTaskStarted msg.taskId = true := by
        rw [IsCompTaskStarted_eq_testBit, hf]
        exact testBit_lor_right _ _ 2 (by decide)
      have hA : s'.sagaAborted = true := by
        rw [hab]
        exact ha
      exact ⟨fun _ => hTS, fun _ => ⟨hA, hTS⟩, fun _ => hCTS⟩
    · have hf := getFlags_insert_other s s' msg.taskId t _ hts hkey
      obtain ⟨h1, h2, h3⟩ := inv t
      exact stateInv_at_transport s s' t hf (fun hA => by rw [hab]; exact hA) h1 h2 h3
  | EndCompTask =>
    obtain ⟨-, -, -, ha, hstart, hcs, hts, hab, -, -, -⟩ := updateEndCompTask_ok s msg s' hmt h
    intro t
    by_cases hkey : t = msg.taskId
    · subst hkey
      have hf : s'.getFlags msg.taskId = Nat.lor (s.getFlags msg.taskId) CompTaskCompleted :=
        getFlags_insert_self s s' msg.taskId _ hts
      have hTS : s'.IsTaskStarted msg.taskId = true := by
        rw [IsTaskStarted_eq_testBit, hf]
        refine testBit_lor_left _ _ 0 ?_
        rw [← IsTaskStarted_eq_testBit]
        exact hstart
      have hCTS : s'.IsCompTaskStarted msg.taskId = true := by
        rw [IsCompTaskStarted_eq_testBit, hf]
        refine testBit_lor_left _ _ 2 ?_
        rw [← IsCompTaskStarted_eq_testBit]
        exact hcs
      have hA : s'.sagaAborted = true := by
        rw [hab]
        exact ha
      exact ⟨fun _ => hTS, fun _ => ⟨hA, hTS⟩, fun _ => hCTS⟩
    · have hf := getFlags_insert_other s s' msg.taskId t _ hts hkey
      obtain ⟨h1, h2, h3⟩ := inv t
      exact stateInv_at_transport s s' t hf (fun hA => by rw [hab]; exact hA) h1 h2 h3

/-- Every reachable state satisfies the flag invariants. -/
theorem reachable_stateInv (s : SagaState) (h : ReachableState s) : StateInv s := by
  induction h with
  | init sagaId job s0 hmk =>
    obtain ⟨-, hs⟩ := makeSagaState_ok_inv sagaId job s0 hmk
    exact stateInv_of_no_tasks s0 (by rw [hs])
  | step s0 msg s1 _ hupd ih => exact stateInv_step s0 msg s1 ih hupd

/-- All four flag tests are monotone under an or of the flags. -/
theorem flags_mono_of_lor (s s' : SagaState) (key : String) (mask : Nat)
    (hf : s'.getFlags key = Nat.lor (s.getFlags key) mask) :
    (s.IsTaskStarted key = true → s'.IsTaskStarted key = true) ∧
    (s.IsTaskCompleted key = true → s'.IsTaskCompleted key = true) ∧
    (s.IsCompTaskStarted key = true → s'.IsCompTaskStarted key = true) ∧
    (s.IsCompTaskCompleted key = true → s'.IsCompTaskCompleted key = true) := by
  refine ⟨?_, ?_, ?_, ?_⟩
  · intro hb
    rw [IsTaskStarted_eq_testBit, hf]
    refine testBit_lor_left _ _ 0 ?_
    rw [← IsTaskStarted_eq_testBit]
    exact hb
  · intro hb
    rw [IsTaskCompleted_eq_testBit, hf]
    refine testBit_lor_left _ _ 1 ?_
    rw [← IsTaskCompleted_eq_testBit]
    exact hb
  · intro hb
    rw [IsCompTaskStarted_eq_testBit, hf]
    refine testBit_lor_left _ _ 2 ?_
    rw [← IsCompTaskStarted_eq_testBit]
    exact hb
  · intro hb
    rw [IsCompTaskCompleted_eq_testBit, hf]
    refine testBit_lor_left _ _ 3 ?_
    rw [← IsCompTaskCompleted_eq_testBit]
    exact hb

/-- All four flag tests are monotone when flags are unchanged. -/
theorem flags_mono_of_eq (s s' : SagaState) (t : String)
    (hf : s'.getFlags t = s.getFlags t) :
    (s.IsTaskStarted t = true → s'.IsTaskStarted t = true) ∧
    (s.IsTaskCompleted t = true → s'.IsTaskCompleted t = true) ∧
    (s.IsCompTaskStarted t = true → s'.IsCompTaskStarted t = true) ∧
    (s.IsCompTaskCompleted t = true → s'.IsCompTaskCompleted t = true) := by
  obtain ⟨e1, e2, e3, e4⟩ := flags_eq_of_getFlags_eq s s' t hf
  refine ⟨?_, ?_, ?_, ?_⟩
  · intro hb
    rw [e1]
    exact hb
  · intro hb
    rw [e2]
    exact hb
  · intro hb
    rw [e3]
    exact hb
  · intro hb
    rw [e4]
    exact hb

/-- An accepted update on a state satisfying the flag invariants never
clears a flag and never lowers the two booleans. -/
theorem update_monotone (s : SagaState) (msg : sagaMessage) (s' : SagaState)
    (inv : StateInv s) (h : updateSagaState s msg = .ok s') :
    (∀ t : String,
      (s.IsTaskStarted t = true → s'.IsTaskStarted t = true) ∧
      (s.IsTaskCompleted t = true → s'.IsTaskCompleted t = true) ∧
      (s.IsCompTaskStarted t = true → s'.IsCompTaskStarted t = true) ∧
      (s.IsCompTaskCompleted t = true → s'.IsCompTaskCompleted t = true)) ∧
    (s.sagaAborted = true → s'.sagaAborted = true) ∧
    (s.sagaCompleted = true → s'.sagaCompleted = true) := by
  cases hmt : msg.msgType with
  | StartSaga => exact (updateStartSaga_never_ok s msg s' hmt h).elim
  | EndSaga =>
    obtain ⟨-, -, hs⟩ := updateEndSaga_ok s msg s' hmt h
    subst hs
    exact ⟨fun t => flags_mono_of_eq s _ t rfl, fun hA => hA, fun _ => rfl⟩
  | AbortSaga =>
    obtain ⟨-, -, hs⟩ := updateAbortSaga_ok s msg s' hmt h
    subst hs
    exact ⟨fun t => flags_mono_of_eq s _ t rfl, fun _ => rfl, fun hC => hC⟩
  | StartTask =>
    obtain ⟨-, -, -, ha, htc, hts, hab, hcp, -, -⟩ := updateStartTask_ok s msg s' hmt h
    refine ⟨?_, ?_, ?_⟩
    · intro t
      by_cases hkey : t = msg.taskId
      · subst hkey
        have hf : s'.getFlags msg.taskId = TaskStarted :=
          getFlags_insert_self s s' msg.taskId TaskStarted hts
        obtain ⟨h1, h2, h3⟩ := inv msg.taskId
        refine ⟨?_, ?_, ?_, ?_⟩
        · intro _
          rw [SagaState.IsTaskStarted, hf]
          decide
        · intro hb
          rw [hb] at htc
          cases htc
        · intro hb
          have hATrue := (h2 hb).1
          rw [ha] at hATrue
          cases hATrue
        · intro hb
          have hATrue := (h2 (h3 hb)).1
          rw [ha] at hATrue
          cases hATrue
      · exact flags_mono_of_eq s s' t (getFlags_insert_other s s' msg.taskId t _ hts hkey)
    · intro hA
      rw [hab]
      exact hA
    · intro hC
      rw [hcp]
      exact hC
  | EndTask =>
    obtain ⟨-, -, -, -, -, hts, hab, hcp, -, -⟩ := updateEndTask_ok s msg s' hmt h
    refine ⟨?_, ?_, ?_⟩
    · intro t
      by_cases hkey : t = msg.taskId
      · subst hkey
        exact flags_mono_of_lor s s' msg.taskId TaskCompleted
          (getFlags_insert_self s s' msg.taskId _ hts)
      · exact flags_mono_of_eq s s' t (getFlags_insert_other s s' msg.taskId t _ hts hkey)
    · intro hA
      rw [hab]
      exact hA
    · intro hC
      rw [hcp]
      exact hC
  | StartCompTask =>
    obtain ⟨-, -, -, -, -, -, hts, hab, hcp, -, -⟩ := updateStartCompTask_ok s msg s' hmt h
    refine ⟨?_, ?_, ?_⟩
    · intro t
      by_cases hkey : t = msg.taskId
      · subst hkey
        exact flags_mono_of_lor s s' msg.taskId CompTaskStarted
          (getFlags_insert_self s s' msg.taskId _ hts)
      · exact flags_mono_of_eq s s' t (getFlags_insert_other s s' msg.taskId t _ hts hkey)
    · intro hA
      rw [hab]
      exact hA
    · intro hC
      rw [hcp]
      exact hC
  | EndCompTask =>
    obtain ⟨-, -, -, -, -, -, hts, hab, hcp, -, -⟩ := updateEndCompTask_ok s msg s' hmt h
    refine ⟨?_, ?_, ?_⟩
    · intro t
      by_cases hkey : t = msg.taskId
      · subst hkey
        exact flags_mono_of_lor s s' msg.taskId CompTaskCompleted
          (getFlags_insert_self s s' msg.taskId _ hts)
      · exact flags_mono_of_eq s s' t (getFlags_insert_other s s' msg.taskId t _ hts hkey)
    · intro hA
      rw [hab]
      exact hA
    · intro hC
      rw [hcp]
      exact hC

/-- The EndSaga loop passes exactly when every listed task meets the
completion condition for the saga mode. -/
theorem checkEndSagaTasks_none_iff (s : SagaState) (l : List (String × Nat)) :
    checkEndSagaTasks s l = none ↔ ∀ p ∈ l,
      (if s.sagaAborted then s.IsCompTaskStarted p.1 && s.IsCompTaskCompleted p.1
       else s.IsTaskCompleted p.1) = true := by
  induction l with
  | nil => simp [checkEndSagaTasks]
  | cons p rest ih =>
    obtain ⟨tid, fl⟩ := p
    cases hA : s.sagaAborted with
    | true =>
      cases hok : (s.IsCompTaskStarted tid && s.IsCompTaskCompleted tid) with
      | false =>
        constructor
        · intro hnone
          simp [checkEndSagaTasks, hA, hok] at hnone
        · intro hall
          exfalso
          have hhead := hall (tid, fl) (List.mem_cons_self _ _)
          simp [hA, hok] at hhead
      | true =>
        constructor
        · intro hnone
          simp only [checkEndSagaTasks, hA] at hnone
          rw [hok] at hnone
          simp at hnone
          intro p hp
          rcases List.mem_cons.mp hp with heq | hmem
          · subst heq
            simp [hA, hok]
          · have hres := (ih.mp hnone) p hmem
            rw [hA] at hres
            exact hres
        · intro hall
          simp only [checkEndSagaTasks, hA]
          rw [hok]
          simp
          refine ih.mpr fun p hp => ?_
          rw [hA]
          exact hall p (List.mem_cons_of_mem _ hp)
    | false =>
      cases hok : s.IsTaskCompleted tid with
      | false =>
        constructor
        · intro hnone
          simp [checkEndSagaTasks, hA, hok] at hnone
        · intro hall
          exfalso
          have hhead := hall (tid, fl) (List.mem_cons_self _ _)
          simp [hA, hok] at hhead
      | true =>
        constructor
        · intro hnone
          simp only [checkEndSagaTasks, hA] at hnone
          rw [hok] at hnone
          simp at hnone
          intro p hp
          rcases List.mem_cons.mp hp with heq | hmem
          · subst heq
            simp [hA, hok]
          · have hres := (ih.mp hnone) p hmem
            rw [hA] at hres
            exact hres
        · intro hall
          simp only [checkEndSagaTasks, hA]
          rw [hok]
          simp
          refine ih.mpr fun p hp => ?_
          rw [hA]
          exact hall p (List.mem_cons_of_mem _ hp)

/-- Any rejection from the EndSaga loop mentions the phrase from the claim. -/
theorem checkEndSagaTasks_some_mentions (s : SagaState) (l : List (String × Nat)) (e : String)
    (h : checkEndSagaTasks s l = some e) : strContains e "has not completed" = true := by
  induction l with
  | nil => simp [checkEndSagaTasks] at h
  | cons p rest ih =>
    obtain ⟨tid, fl⟩ := p
    cases hA : s.sagaAborted with
    | true =>
      cases hok : (s.IsCompTaskStarted tid && s.IsCompTaskCompleted tid) with
      | false =>
        simp [checkEndSagaTasks, hA, hok] at h
        subst h
        exact strContains_append_right _ _ _ (by decide)
      | true =>
        simp [checkEndSagaTasks, hA, hok] at h
        exact ih h
    | false =>
      cases hok : s.IsTaskCompleted tid with
      | false =>
        simp [checkEndSagaTasks, hA, hok] at h
        subst h
        exact strContains_append_right _ _ _ (by decide)
      | true =>
        simp [checkEndSagaTasks, hA, hok] at h
        exact ih h

/-- The EndSaga loop condition equals the spec-side readiness predicate. -/
theorem checkEndSagaTasks_none_iff_ready (s : SagaState) :
    checkEndSagaTasks s s.taskState = none ↔ endSagaReady s = true := by
  rw [checkEndSagaTasks_none_iff, endSagaReady, List.all_eq_true]

/-- Branch equation of updateSagaState for a matching EndSaga message. -/
theorem updateEndSaga_eq (s : SagaState) (msg : sagaMessage)
    (ht : msg.msgType = .EndSaga) (hid : msg.sagaId = s.sagaId) :
    updateSagaState s msg =
      match checkEndSagaTasks s s.taskState with
      | some e => Except.error e
      | none => Except.ok { s with sagaCompleted := true } := by
  simp [updateSagaState, copySagaState, ht, hid]

/-- The in-memory log lookups after a trace refine the spec-side fold. -/
theorem runLogOps_lookup_general (sagaId : String) (ops : List LogOp) (log : inMemorySagaLog) :
    lookupAL (List.foldl applyLogOp log ops).sagas sagaId =
      List.foldl (expectedStep sagaId) (lookupAL log.sagas sagaId) ops := by
  induction ops generalizing log with
  | nil => rfl
  | cons op rest ih =>
    rw [List.foldl_cons, List.foldl_cons, ih]
    congr 1
    cases op with
    | start sid job =>
      by_cases hsid : sid = sagaId
      · simp [applyLogOp, inMemorySagaLog.StartSaga, expectedStep, hsid,
          lookupAL_insertAL_self]
      · have hne : sagaId ≠ sid := fun hh => hsid hh.symm
        simp [applyLogOp, inMemorySagaLog.StartSaga, expectedStep, hsid,
          lookupAL_insertAL_ne _ _ _ _ hne]
    | append m =>
      cases hl : lookupAL log.sagas m.sagaId with
      | none =>
        by_cases hm : m.sagaId = sagaId
        · rw [hm] at hl
          simp [applyLogOp, inMemorySagaLog.LogMessage, expectedStep, hl, hm]
        · simp [applyLogOp, inMemorySagaLog.LogMessage, expectedStep, hl, hm]
      | some msgs =>
        by_cases hm : m.sagaId = sagaId
        · rw [hm] at hl
          simp [applyLogOp, inMemorySagaLog.LogMessage, expectedStep, hl, hm,
            lookupAL_insertAL_self]
        · have hne : sagaId ≠ m.sagaId := fun hh => hm hh.symm
          simp [applyLogOp, inMemorySagaLog.LogMessage, expectedStep, hl, hm,
            lookupAL_insertAL_ne _ _ _ _ hne]

/-- Lookup after a trace from the empty log equals the spec-side sequence. -/
theorem runLogOps_lookup (ops : List LogOp) (sagaId : String) :
    lookupAL (runLogOps ops).sagas sagaId = expectedSagaSeq ops sagaId :=
  runLogOps_lookup_general sagaId ops { sagas := [] }

/-- The spec-side fold yields nothing exactly when nothing was started. -/
theorem expectedFold_none_iff (sagaId : String) (ops : List LogOp)
    (acc : Option (List sagaMessage)) :
    List.foldl (expectedStep sagaId) acc ops = none ↔
      (acc = none ∧ ∀ op ∈ ops, startsFor sagaId op = false) := by
  induction ops generalizing acc with
  | nil => simp
  | cons op rest ih =>
    cases op with
    | start sid job =>
      by_cases hsid : sid = sagaId
      · simp [expectedStep, hsid, startsFor, ih]
      · simp [expectedStep, hsid, startsFor, ih]
    | append m =>
      by_cases hm : m.sagaId = sagaId
      · cases acc with
        | none => simp [expectedStep, hm, startsFor, ih]
        | some l => simp [expectedStep, hm, startsFor, ih]
      · simp [expectedStep, hm, startsFor, ih]

/-- Forward equation for an accepted StartTask message. -/
theorem updateStartTask_accept (s : SagaState) (msg : sagaMessage)
    (ht : msg.msgType = .StartTask) (hid : msg.sagaId = s.sagaId) (htid : msg.taskId ≠ "")
    (hC : s.sagaCompleted = false) (hA : s.sagaAborted = false)
    (htc : s.IsTaskCompleted msg.taskId = false) :
    updateSagaState s msg = .ok { (match msg.data with | some d => s.addTaskData msg.taskId SagaMessageType.StartTask d | none => s) with taskState := insertAL s.taskState msg.taskId TaskStarted } := by
  have hv : validateTaskId msg.taskId = none := by
    rw [validateTaskId, if_neg htid]
  cases hd : msg.data with
  | none =>
    simp [updateSagaState, copySagaState, ht, hid, hv, SagaState.IsSagaCompleted,
      SagaState.IsSagaAborted, hC, hA, htc, hd]
  | some d =>
    simp [updateSagaState, copySagaState, ht, hid, hv, SagaState.IsSagaCompleted,
      SagaState.IsSagaAborted, hC, hA, htc, hd, addTaskData_taskState]

/-- The start data blob recorded by addTaskData for a StartTask message. -/
theorem GetStartTaskData_addTaskData (s : SagaState) (t : String) (d : List Nat) :
    (s.addTaskData t SagaMessageType.StartTask d).GetStartTaskData t = some d := by
  simp [SagaState.addTaskData, SagaState.GetStartTaskData, lookupAL_insertAL_self]

/-- GetStartTaskData only reads the taskData field. -/
theorem GetStartTaskData_congr (s1 s2 : SagaState) (t : String)
    (h : s1.taskData = s2.taskData) : s1.GetStartTaskData t = s2.GetStartTaskData t := by
  rw [SagaState.GetStartTaskData, SagaState.GetStartTaskData, h]

/-- C2: on a running, non-aborted saga, a StartTask message with matching
sagaId, non-empty taskId and TaskCompleted unset is accepted, marks the task
started, and records non-nil data as the taskStart blob; only TaskCompleted
disqualifies the restart, so an already started task may be started again. -/
theorem claim_C2_startTask_accept (s : SagaState) (msg : sagaMessage)
    (hC : s.sagaCompleted = false) (hA : s.sagaAborted = false)
    (ht : msg.msgType = .StartTask) (hid : msg.sagaId = s.sagaId)
    (htid : msg.taskId ≠ "") (htc : s.IsTaskCompleted msg.taskId = false) :
    ∃ s', updateSagaState s msg = .ok s' ∧ s'.IsTaskStarted msg.taskId = true ∧
      ∀ d, msg.data = some d → s'.GetStartTaskData msg.taskId = some d := by
  have hacc := updateStartTask_accept s msg ht hid htid hC hA htc
  cases hd : msg.data with
  | none =>
    rw [hd] at hacc
    refine ⟨_, hacc, ?_, ?_⟩
    · rw [SagaState.IsTaskStarted, getFlags_insert_self s _ msg.taskId TaskStarted rfl]
      decide
    · intro d hdd
      cases hdd
  | some d0 =>
    rw [hd] at hacc
    refine ⟨_, hacc, ?_, ?_⟩
    · rw [SagaState.IsTaskStarted, getFlags_insert_self s _ msg.taskId TaskStarted rfl]
      decide
    · intro d hdd
      injection hdd with hdd
      subst hdd
      calc ({ s.addTaskData msg.taskId SagaMessageType.StartTask d0 with taskState := insertAL s.taskState msg.taskId TaskStarted } : SagaState).GetStartTaskData msg.taskId
          = (s.addTaskData msg.taskId SagaMessageType.StartTask d0).GetStartTaskData msg.taskId :=
            GetStartTaskData_congr _ _ _ rfl
        _ = some d0 := GetStartTaskData_addTaskData s msg.taskId d0

/-- C2 witness: a task already started but not completed is restarted and its
start data stored. -/
theorem claim_C2_witness :
    ∃ s', updateSagaState
        { sagaId := "s", job := none, taskData := [], taskState := [("t1", 1)], sagaAborted := false, sagaCompleted := false }
        { sagaId := "s", msgType := .StartTask, taskId := "t1", data := some [5] } = .ok s' ∧
      s'.IsTaskStarted "t1" = true ∧
      ∀ d, ({ sagaId := "s", msgType := .StartTask, taskId := "t1", data := some [5] } : sagaMessage).data = some d →
        s'.GetStartTaskData "t1" = some d :=
  claim_C2_startTask_accept
    { sagaId := "s", job := none, taskData := [], taskState := [("t1", 1)], sagaAborted := false, sagaCompleted := false }
    { sagaId := "s", msgType := .StartTask, taskId := "t1", data := some [5] }
    rfl rfl rfl rfl (by decide) (by decide)

/-- C3 counterexample: on an initialized state, a StartSaga message with a
mismatched sagaId is rejected by the identity check, so the rejection is not
the InvalidSagaState StartSaga error the claim promises. -/
theorem claim_C3_counterexample :
    updateSagaState
      { sagaId := "s1", job := none, taskData := [], taskState := [], sagaAborted := false, sagaCompleted := false }
      { sagaId := "s2", msgType := .StartSaga, taskId := "", data := none } ≠
    Except.error "InvalidSagaState: Cannot apply a StartSaga Message to an already existing Saga" := by
  have heq : updateSagaState
      { sagaId := "s1", job := none, taskData := [], taskState := [], sagaAborted := false, sagaCompleted := false }
      { sagaId := "s2", msgType := .StartSaga, taskId := "", data := none } =
      Except.error "InvalidSagaMessage: sagaId s1 & SagaMessage sagaId s2 do not match" := by
    rfl
  rw [heq]
  intro hcontra
  injection hcontra with hmsg
  exact absurd hmsg (by decide)

/-- C3 (amended): updateSagaState rejects every StartSaga message; the
identity check runs first for every message type including StartSaga, so the
InvalidSagaState StartSaga error is produced exactly for a matching sagaId,
and a mismatched sagaId yields the InvalidSagaMessage mismatch error. -/
theorem claim_C3_startSaga_rejected (s : SagaState) (msg : sagaMessage)
    (ht : msg.msgType = .StartSaga) :
    (∃ e, updateSagaState s msg = .error e) ∧
    (msg.sagaId = s.sagaId → updateSagaState s msg =
      .error "InvalidSagaState: Cannot apply a StartSaga Message to an already existing Saga") ∧
    (msg.sagaId ≠ s.sagaId → updateSagaState s msg =
      .error ("InvalidSagaMessage: sagaId " ++ s.sagaId ++ " & SagaMessage sagaId " ++ msg.sagaId ++ " do not match")) := by
  by_cases hid : msg.sagaId = s.sagaId
  · have heq : updateSagaState s msg =
        .error "InvalidSagaState: Cannot apply a StartSaga Message to an already existing Saga" := by
      simp [updateSagaState, copySagaState, ht, hid]
    exact ⟨⟨_, heq⟩, fun _ => heq, fun hne => absurd hid hne⟩
  · have heq : updateSagaState s msg =
        .error ("InvalidSagaMessage: sagaId " ++ s.sagaId ++ " & SagaMessage sagaId " ++ msg.sagaId ++ " do not match") := by
      simp [updateSagaState, copySagaState, hid]
    exact ⟨⟨_, heq⟩, fun hcontra => absurd hcontra hid, fun _ => heq⟩

/-- C3 witness: a matching StartSaga on an initialized state draws the
InvalidSagaState error. -/
theorem claim_C3_witness :
    updateSagaState
      { sagaId := "s1", job := none, taskData := [], taskState := [], sagaAborted := false, sagaCompleted := false }
      { sagaId := "s1", msgType := .StartSaga, taskId := "", data := none } =
    Except.error "InvalidSagaState: Cannot apply a StartSaga Message to an already existing Saga" :=
  (claim_C3_startSaga_rejected
    { sagaId := "s1", job := none, taskData := [], taskState := [], sagaAborted := false, sagaCompleted := false }
    { sagaId := "s1", msgType := .StartSaga, taskId := "", data := none }
    rfl).2.1 rfl

/-- C6: any task message with an empty taskId and a matching sagaId is
rejected with an error mentioning that the taskId cannot be the empty
string; updateSagaState is pure and returns only that error. -/
theorem claim_C6_empty_taskId (s : SagaState) (msg : sagaMessage)
    (hid : msg.sagaId = s.sagaId) (htid : msg.taskId = "")
    (ht : msg.msgType = .StartTask ∨ msg.msgType = .EndTask ∨
      msg.msgType = .StartCompTask ∨ msg.msgType = .EndCompTask) :
    updateSagaState s msg = .error "Invalid Saga Message: taskId cannot be the empty string" ∧
    strContains "Invalid Saga Message: taskId cannot be the empty string"
      "taskId cannot be the empty string" = true := by
  have hv : validateTaskId msg.taskId =
      some "Invalid Saga Message: taskId cannot be the empty string" := by
    rw [validateTaskId, if_pos htid]
  refine ⟨?_, by decide⟩
  rcases ht with ht | ht | ht | ht <;> simp [updateSagaState, copySagaState, ht, hid, hv]

/-- C6 witness: an EndTask with an empty taskId is rejected. -/
theorem claim_C6_witness :
    updateSagaState
      { sagaId := "s1", job := none, taskData := [], taskState := [], sagaAborted := false, sagaCompleted := false }
      { sagaId := "s1", msgType := .EndTask, taskId := "", data := none } =
      Except.error "Invalid Saga Message: taskId cannot be the empty string" ∧
    strContains "Invalid Saga Message: taskId cannot be the empty string"
      "taskId cannot be the empty string" = true :=
  claim_C6_empty_taskId
    { sagaId := "s1", job := none, taskData := [], taskState := [], sagaAborted := false, sagaCompleted := false }
    { sagaId := "s1", msgType := .EndTask, taskId := "", data := none }
    rfl rfl (Or.inr (Or.inl rfl))

/-- C1: a matching EndSaga message is accepted exactly when every task in
taskState has both compensating flags set if the saga is aborted, and
TaskCompleted set otherwise; acceptance only sets sagaCompleted and a
rejection mentions that a task has not completed. -/
theorem claim_C1_endSaga (s : SagaState) (msg : sagaMessage)
    (ht : msg.msgType = .EndSaga) (hid : msg.sagaId = s.sagaId) :
    ((∃ s', updateSagaState s msg = .ok s') ↔ endSagaReady s = true) ∧
    (endSagaReady s = true →
      updateSagaState s msg = .ok { s with sagaCompleted := true }) ∧
    (endSagaReady s = false →
      ∃ e, updateSagaState s msg = .error e ∧ strContains e "has not completed" = true) := by
  have heq := updateEndSaga_eq s msg ht hid
  refine ⟨⟨?_, ?_⟩, ?_, ?_⟩
  · rintro ⟨s', hs'⟩
    exact (checkEndSagaTasks_none_iff_ready s).mp (updateEndSaga_ok s msg s' ht hs').2.1
  · intro hready
    refine ⟨{ s with sagaCompleted := true }, ?_⟩
    rw [heq, (checkEndSagaTasks_none_iff_ready s).mpr hready]
  · intro hready
    rw [heq, (checkEndSagaTasks_none_iff_ready s).mpr hready]
  · intro hnotready
    cases hchk : checkEndSagaTasks s s.taskState with
    | none =>
      rw [(checkEndSagaTasks_none_iff_ready s).mp hchk] at hnotready
      cases hnotready
    | some e =>
      refine ⟨e, ?_, checkEndSagaTasks_some_mentions s s.taskState e hchk⟩
      rw [heq, hchk]

/-- C1 witness: an EndSaga on a saga whose only task is completed succeeds
and only sets sagaCompleted. -/
theorem claim_C1_witness :
    updateSagaState
      { sagaId := "s", job := none, taskData := [], taskState := [("t1", 3)], sagaAborted := false, sagaCompleted := false }
      { sagaId := "s", msgType := .EndSaga, taskId := "", data := none } =
    Except.ok { sagaId := "s", job := none, taskData := [], taskState := [("t1", 3)], sagaAborted := false, sagaCompleted := true } :=
  (claim_C1_endSaga
    { sagaId := "s", job := none, taskData := [], taskState := [("t1", 3)], sagaAborted := false, sagaCompleted := false }
    { sagaId := "s", msgType := .EndSaga, taskId := "", data := none }
    rfl rfl).2.1 (by decide)

/-- C10: updateSagaState never accepts a StartSaga message and never changes
the sagaId or job of a state; a mismatched sagaId of any message type is
rejected up front with the mismatch error; makeSagaState fails exactly on
the empty sagaId and otherwise yields the fresh state with that sagaId and
job, empty task maps and cleared booleans. -/
theorem claim_C10_identity (s : SagaState) (msg : sagaMessage) (sagaId : String)
    (job : Option (List Nat)) :
    (msg.msgType = .StartSaga → ∀ s', updateSagaState s msg ≠ .ok s') ∧
    (∀ s', updateSagaState s msg = .ok s' → s'.sagaId = s.sagaId ∧ s'.job = s.job) ∧
    (msg.sagaId ≠ s.sagaId → updateSagaState s msg =
      .error ("InvalidSagaMessage: sagaId " ++ s.sagaId ++ " & SagaMessage sagaId " ++ msg.sagaId ++ " do not match")) ∧
    (sagaId = "" → makeSagaState sagaId job =
      .error "Invalid Saga Message: sagaId cannot be the empty string") ∧
    (sagaId ≠ "" → makeSagaState sagaId job =
      .ok { sagaId := sagaId, job := job, taskData := [], taskState := [], sagaAborted := false, sagaCompleted := false }) := by
  refine ⟨?_, ?_, ?_, ?_, ?_⟩
  · intro hmt s' hok
    exact updateStartSaga_never_ok s msg s' hmt hok
  · intro s' hok
    cases hmt : msg.msgType with
    | StartSaga => exact (updateStartSaga_never_ok s msg s' hmt hok).elim
    | EndSaga =>
      obtain ⟨-, -, hs⟩ := updateEndSaga_ok s msg s' hmt hok
      subst hs
      exact ⟨rfl, rfl⟩
    | AbortSaga =>
      obtain ⟨-, -, hs⟩ := updateAbortSaga_ok s msg s' hmt hok
      subst hs
      exact ⟨rfl, rfl⟩
    | StartTask =>
      obtain ⟨-, -, -, -, -, -, -, -, hsid, hjob⟩ := updateStartTask_ok s msg s' hmt hok
      exact ⟨hsid, hjob⟩
    | EndTask =>
      obtain ⟨-, -, -, -, -, -, -, -, hsid, hjob⟩ := updateEndTask_ok s msg s' hmt hok
      exact ⟨hsid, hjob⟩
    | StartCompTask =>
      obtain ⟨-, -, -, -, -, -, -, -, -, hsid, hjob⟩ := updateStartCompTask_ok s msg s' hmt hok
      exact ⟨hsid, hjob⟩
    | EndCompTask =>
      obtain ⟨-, -, -, -, -, -, -, -, -, hsid, hjob⟩ := updateEndCompTask_ok s msg s' hmt hok
      exact ⟨hsid, hjob⟩
  · intro hne
    simp [updateSagaState, copySagaState, hne]
  · intro he
    simp [makeSagaState, validateSagaId, he]
  · intro he
    simp [makeSagaState, validateSagaId, he, initializeSagaState]

/-- C10 witness: a fresh state from makeSagaState carries its inputs. -/
theorem claim_C10_witness :
    makeSagaState "s" (some [1]) =
      Except.ok { sagaId := "s", job := some [1], taskData := [], taskState := [], sagaAborted := false, sagaCompleted := false } :=
  (claim_C10_identity
    { sagaId := "s", job := none, taskData := [], taskState := [], sagaAborted := false, sagaCompleted := false }
    { sagaId := "s", msgType := .EndSaga, taskId := "", data := none }
    "s" (some [1])).2.2.2.2 (by decide)

/-- C4: from any reachable state, an accepted update preserves every set
task flag and never lowers sagaAborted or sagaCompleted. -/
theorem claim_C4_monotonic (S : SagaState) (m : sagaMessage) (S2 : SagaState)
    (hr : ReachableState S) (h : updateSagaState S m = .ok S2) :
    (∀ t : String,
      (S.IsTaskStarted t = true → S2.IsTaskStarted t = true) ∧
      (S.IsTaskCompleted t = true → S2.IsTaskCompleted t = true) ∧
      (S.IsCompTaskStarted t = true → S2.IsCompTaskStarted t = true) ∧
      (S.IsCompTaskCompleted t = true → S2.IsCompTaskCompleted t = true)) ∧
    (S.sagaAborted = true → S2.sagaAborted = true) ∧
    (S.sagaCompleted = true → S2.sagaCompleted = true) :=
  update_monotone S m S2 (reachable_stateInv S hr) h

/-- C4 witness: the started flag survives an accepted EndTask on a reachable
state. -/
theorem claim_C4_witness :
    SagaState.IsTaskStarted { sagaId := "s", job := none, taskData := [], taskState := [("t1", 3)], sagaAborted := false, sagaCompleted := false } "t1" = true :=
  ((claim_C4_monotonic
      { sagaId := "s", job := none, taskData := [], taskState := [("t1", 1)], sagaAborted := false, sagaCompleted := false }
      { sagaId := "s", msgType := .EndTask, taskId := "t1", data := none }
      { sagaId := "s", job := none, taskData := [], taskState := [("t1", 3)], sagaAborted := false, sagaCompleted := false }
      (ReachableState.step
        { sagaId := "s", job := none, taskData := [], taskState := [], sagaAborted := false, sagaCompleted := false }
        { sagaId := "s", msgType := .StartTask, taskId := "t1", data := none }
        { sagaId := "s", job := none, taskData := [], taskState := [("t1", 1)], sagaAborted := false, sagaCompleted := false }
        (ReachableState.init "s" none
          { sagaId := "s", job := none, taskData := [], taskState := [], sagaAborted := false, sagaCompleted := false } rfl)
        rfl)
      rfl).1 "t1").1 (by decide)

/-- C5: every reachable state satisfies the three task-flag invariants. -/
theorem claim_C5_invariants (s : SagaState) (hr : ReachableState s) :
    ∀ t : String,
      (s.IsTaskCompleted t = true → s.IsTaskStarted t = true) ∧
      (s.IsCompTaskStarted t = true → s.sagaAborted = true ∧ s.IsTaskStarted t = true) ∧
      (s.IsCompTaskCompleted t = true → s.IsCompTaskStarted t = true) :=
  reachable_stateInv s hr

/-- C5 witness: on a reachable aborted state with a started compensating
task, the invariant yields the abort bit and the started flag. -/
theorem claim_C5_witness :
    SagaState.sagaAborted { sagaId := "s", job := none, taskData := [], taskState := [("t1", 5)], sagaAborted := true, sagaCompleted := false } = true ∧
    SagaState.IsTaskStarted { sagaId := "s", job := none, taskData := [], taskState := [("t1", 5)], sagaAborted := true, sagaCompleted := false } "t1" = true :=
  ((claim_C5_invariants
      { sagaId := "s", job := none, taskData := [], taskState := [("t1", 5)], sagaAborted := true, sagaCompleted := false }
      (ReachableState.step
        { sagaId := "s", job := none, taskData := [], taskState := [("t1", 1)], sagaAborted := true, sagaCompleted := false }
        { sagaId := "s", msgType := .StartCompTask, taskId := "t1", data := none }
        { sagaId := "s", job := none, taskData := [], taskState := [("t1", 5)], sagaAborted := true, sagaCompleted := false }
        (ReachableState.step
          { sagaId := "s", job := none, taskData := [], taskState := [("t1", 1)], sagaAborted := false, sagaCompleted := false }
          { sagaId := "s", msgType := .AbortSaga, taskId := "", data := none }
          { sagaId := "s", job := none, taskData := [], taskState := [("t1", 1)], sagaAborted := true, sagaCompleted := false }
          (ReachableState.step
            { sagaId := "s", job := none, taskData := [], taskState := [], sagaAborted := false, sagaCompleted := false }
            { sagaId := "s", msgType := .StartTask, taskId := "t1", data := none }
            { sagaId := "s", job := none, taskData := [], taskState := [("t1", 1)], sagaAborted := false, sagaCompleted := false }
            (ReachableState.init "s" none
              { sagaId := "s", job := none, taskData := [], taskState := [], sagaAborted := false, sagaCompleted := false } rfl)
            rfl)
          rfl)
        rfl)) "t1").2.1 (by decide)

/-- C7: LogMessage fails exactly when the per-saga entry does not exist (no
StartSaga on record); a failure leaves the log unchanged, a success appends
the message at the end of its own saga sequence and leaves all other sagas
unchanged; over a trace from the empty log the per-saga entry is absent
exactly when the trace contains no StartSaga for that sagaId. -/
theorem claim_C7_logMessage (log : inMemorySagaLog) (msg : sagaMessage) :
    ((∃ e, log.LogMessage msg = .error e) ↔ lookupAL log.sagas msg.sagaId = none) ∧
    (∀ e, log.LogMessage msg = .error e → applyLogOp log (.append msg) = log) ∧
    (∀ log', log.LogMessage msg = .ok log' →
      lookupAL log'.sagas msg.sagaId =
        (lookupAL log.sagas msg.sagaId).map (fun l => l ++ [msg]) ∧
      ∀ sid, sid ≠ msg.sagaId → lookupAL log'.sagas sid = lookupAL log.sagas sid) ∧
    (∀ ops : List LogOp,
      lookupAL (runLogOps ops).sagas msg.sagaId = none ↔
        ∀ op ∈ ops, startsFor msg.sagaId op = false) := by
  refine ⟨⟨?_, ?_⟩, ?_, ?_, ?_⟩
  · rintro ⟨e, he⟩
    cases hlk : lookupAL log.sagas msg.sagaId with
    | none => rfl
    | some msgs => simp [inMemorySagaLog.LogMessage, hlk] at he
  · intro hl
    refine ⟨"Saga: " ++ msg.sagaId ++ " is not Started yet.", ?_⟩
    simp [inMemorySagaLog.LogMessage, hl]
  · intro e he
    cases hlk : lookupAL log.sagas msg.sagaId with
    | none => simp [applyLogOp, inMemorySagaLog.LogMessage, hlk]
    | some msgs => simp [inMemorySagaLog.LogMessage, hlk] at he
  · intro log' hok
    cases hlk : lookupAL log.sagas msg.sagaId with
    | none => simp [inMemorySagaLog.LogMessage, hlk] at hok
    | some msgs =>
      simp [inMemorySagaLog.LogMessage, hlk] at hok
      subst hok
      refine ⟨?_, ?_⟩
      · simp [lookupAL_insertAL_self, hlk]
      · intro sid hsid
        simp [lookupAL_insertAL_ne _ _ _ _ hsid]
  · intro ops
    rw [runLogOps_lookup, expectedSagaSeq, expectedFold_none_iff]
    simp

/-- C7 witness: logging to a saga never started fails. -/
theorem claim_C7_witness :
    ∃ e, inMemorySagaLog.LogMessage { sagas := [] }
      { sagaId := "s", msgType := .EndSaga, taskId := "", data := none } = .error e :=
  (claim_C7_logMessage { sagas := [] }
    { sagaId := "s", msgType := .EndSaga, taskId := "", data := none }).1.mpr rfl

/-- C8: GetMessages never returns an error; on a log built by a trace from
the empty log it returns exactly the spec-side per-saga sequence, the most
recent StartSaga first then each successfully logged message in call order,
and the empty sequence with no error for an unknown sagaId. -/
theorem claim_C8_getMessages (log : inMemorySagaLog) (sagaId : String) (ops : List LogOp) :
    (∃ msgs, log.GetMessages sagaId = .ok msgs) ∧
    ((runLogOps ops).GetMessages sagaId = .ok ((expectedSagaSeq ops sagaId).getD [])) ∧
    (expectedSagaSeq ops sagaId = none → (runLogOps ops).GetMessages sagaId = .ok []) := by
  refine ⟨?_, ?_, ?_⟩
  · cases hl : lookupAL log.sagas sagaId with
    | none => exact ⟨[], by simp [inMemorySagaLog.GetMessages, hl]⟩
    | some msgs => exact ⟨msgs, by simp [inMemorySagaLog.GetMessages, hl]⟩
  · have hrl := runLogOps_lookup ops sagaId
    cases hseq : expectedSagaSeq ops sagaId with
    | none =>
      rw [hseq] at hrl
      simp [inMemorySagaLog.GetMessages, hrl]
    | some l =>
      rw [hseq] at hrl
      simp [inMemorySagaLog.GetMessages, hrl]
  · intro hnone
    have hrl := runLogOps_lookup ops sagaId
    rw [hnone] at hrl
    simp [inMemorySagaLog.GetMessages, hrl]

/-- C8 witness: the trace start then append yields both messages in order. -/
theorem claim_C8_witness :
    inMemorySagaLog.GetMessages
      (runLogOps [LogOp.start "a" none,
        LogOp.append { sagaId := "a", msgType := .AbortSaga, taskId := "", data := none }]) "a" =
    .ok ((expectedSagaSeq [LogOp.start "a" none,
        LogOp.append { sagaId := "a", msgType := .AbortSaga, taskId := "", data := none }] "a").getD []) :=
  (claim_C8_getMessages { sagas := [] } "a"
    [LogOp.start "a" none,
      LogOp.append { sagaId := "a", msgType := .AbortSaga, taskId := "", data := none }]).2.1

/-- C9: StartSaga on the in-memory log always succeeds and replaces the
per-saga sequence with exactly the one StartSaga message carrying that
sagaId and job, even when an entry already existed; afterwards the sagaId is
enumerated by GetActiveSagas. -/
theorem claim_C9_startSaga (log : inMemorySagaLog) (sagaId : String)
    (job : Option (List Nat)) :
    ∃ log', log.StartSaga sagaId job = .ok log' ∧
      lookupAL log'.sagas sagaId = some [MakeStartSagaMessage sagaId job] ∧
      ∃ ids, log'.GetActiveSagas = .ok ids ∧ sagaId ∈ ids := by
  refine ⟨_, rfl, ?_, ?_⟩
  · exact lookupAL_insertAL_self log.sagas sagaId [MakeStartSagaMessage sagaId job]
  · exact ⟨_, rfl, insertAL_mem_keys log.sagas sagaId _⟩

/-- C9 witness: a StartSaga over an existing entry overwrites it. -/
theorem claim_C9_witness :
    ∃ log', inMemorySagaLog.StartSaga { sagas := [("a", [])] } "a" none = .ok log' ∧
      lookupAL log'.sagas "a" = some [MakeStartSagaMessage "a" none] ∧
      ∃ ids, log'.GetActiveSagas = .ok ids ∧ "a" ∈ ids :=
  claim_C9_startSaga { sagas := [("a", [])] } "a" none
